import Mathlib

/-!
Verification of the Neo_Tracker risk-scoring engine
(`backend/app/services/risk_calculator.py` together with the exception
machinery of `backend/app/core/exceptions.py`).

The engine is embedded shallowly over `ℚ`:

* Python `float` values are modelled as exact rationals; every branch
  condition in the source is a comparison or a truthiness test, both of
  which are decidable over `ℚ`.
* Python's `round(x, n)` uses round-half-to-even; `pyRound` implements it
  exactly on rationals.
* `datetime` values are modelled by the two observables the engine uses:
  a POSIX timestamp in seconds (comparison, subtraction) and the calendar
  year (for the approach decade).  `datetime.now(timezone.utc)` is passed
  in explicitly as the `now` argument.
* The magnitude-to-diameter estimate `(1329/sqrt 0.25) * 10 ** (-0.2 * H)`
  is transcendental in `H`, so the pipeline is parameterized by an
  estimator function `est : ℚ → ℚ`; theorems quantify over `est` and hence
  cover the source's estimator.  At magnitudes that are integer multiples
  of 5 the source value is exactly rational and is produced by
  `estimator_pow5` below, which instantiates `est` in concrete witnesses.
* Exceptions are modelled with `Except` over a `PyError` type that
  distinguishes the repository's `NEOTrackerException` hierarchy from
  plain Python exceptions, mirroring the `handle_exceptions` decorator
  and `batch_risk_calculation`.
-/

/-- Python `round(x, ndigits)` rounds half to even.  `roundHalfEven x` is the
integer nearest to `x`, ties going to the even integer. -/
def roundHalfEven (x : ℚ) : ℤ :=
  if Int.fract x < 1/2 then ⌊x⌋
  else if 1/2 < Int.fract x then ⌊x⌋ + 1
  else if ⌊x⌋ % 2 = 0 then ⌊x⌋ else ⌊x⌋ + 1

/-- Python `round(x, ndigits)` for a nonnegative digit count, exactly on `ℚ`. -/
def pyRound (ndigits : ℕ) (x : ℚ) : ℚ :=
  (roundHalfEven (x * 10 ^ ndigits) : ℚ) / 10 ^ ndigits

/-- Python truthiness of an optional float conjoined with a further test:
`o and p(o)` is false for `None` and for `0.0`, otherwise it is `p o`.
This models the `x and x > c`-style conditions of the source. -/
def truthyAnd (o : Option ℚ) (p : ℚ → Bool) : Bool :=
  match o with
  | none => false
  | some x => decide (x ≠ 0) && p x

/-- Model of a timezone-aware `datetime`: the POSIX timestamp in seconds
(used for comparison and subtraction) and the calendar year (used for the
approach decade). -/
structure DateTime where
  ts : ℚ
  year : ℤ
deriving DecidableEq

/-- `RiskThresholds` dataclass: configurable breakpoints, with the source's
default values. -/
structure RiskThresholds where
  distance_critical : ℚ := 100000
  distance_very_high : ℚ := 384400
  distance_high : ℚ := 1926000
  distance_medium : ℚ := 7704000
  distance_low : ℚ := 77040000
  diameter_critical : ℚ := 10.0
  diameter_very_high : ℚ := 1.0
  diameter_high : ℚ := 0.14
  diameter_medium : ℚ := 0.05
  diameter_low : ℚ := 0.01
  velocity_critical : ℚ := 200000
  velocity_very_high : ℚ := 100000
  velocity_high : ℚ := 50000
  velocity_medium : ℚ := 25000
  velocity_low : ℚ := 10000
  time_critical : ℚ := 7
  time_very_high : ℚ := 30
  time_high : ℚ := 365
  time_medium : ℚ := 3650
deriving DecidableEq

/-- `RiskThresholds()` with all dataclass defaults. -/
def default_thresholds : RiskThresholds := {}

/-- `RiskThresholds.from_settings()`: the three `high` breakpoints replaced
by the defaults of `settings.py` (`risk_threshold_distance_km = 7500000`,
`risk_threshold_diameter_km = 0.14`, `risk_threshold_velocity_kmh = 25000`). -/
def thresholds_from_settings : RiskThresholds :=
  { distance_high := 7500000, diameter_high := 0.14, velocity_high := 25000 }

/-- `RiskAnalysis` result dataclass.  `factor_scores` is the insertion-ordered
dict keyed by the `RiskFactor` enum values. -/
structure RiskAnalysis where
  overall_score : ℚ
  risk_level : String
  confidence : ℚ
  factor_scores : List (String × ℚ)
  primary_concerns : List String
  risk_factors : List String
  mitigating_factors : List String
  time_to_approach_days : Option ℚ
  approach_decade : Option String
  monitoring_priority : String
  observation_frequency : String
deriving DecidableEq

/-- Exact value of the source estimator
`(1329 / math.sqrt 0.25) * 10 ** (-0.2 * H) = 2658 * 10 ** (-H/5)`
at magnitudes `H` that are integer multiples of 5 (where the value is
rational); used to instantiate the abstract estimator in witnesses. -/
def estimator_pow5 (absolute_magnitude : ℚ) : ℚ :=
  2658 * (10 : ℚ) ^ (⌊-(absolute_magnitude / 5)⌋)

/-- `AsteroidRiskCalculator._calculate_size_score`: if the diameter is absent
it is estimated from the absolute magnitude via `est` when available,
otherwise the score is 0; then a 6-band ladder on the diameter. -/
def calculate_size_score (est : ℚ → ℚ) (t : RiskThresholds)
    (diameter_km absolute_magnitude : Option ℚ) : ℚ :=
  match diameter_km, absolute_magnitude with
  | none, none => 0.0
  | none, some h => size_ladder (est h)
  | some d, _ => size_ladder d
where
  size_ladder (d : ℚ) : ℚ :=
    if d ≥ t.diameter_critical then 25.0
    else if d ≥ t.diameter_very_high then 22.0
    else if d ≥ t.diameter_high then 18.0
    else if d ≥ t.diameter_medium then 12.0
    else if d ≥ t.diameter_low then 6.0
    else 2.0

/-- `AsteroidRiskCalculator._calculate_distance_score`. -/
def calculate_distance_score (t : RiskThresholds) (miss_distance_km : Option ℚ) : ℚ :=
  match miss_distance_km with
  | none => 0.0
  | some m =>
    if m ≤ t.distance_critical then 25.0
    else if m ≤ t.distance_very_high then 20.0
    else if m ≤ t.distance_high then 15.0
    else if m ≤ t.distance_medium then 10.0
    else if m ≤ t.distance_low then 5.0
    else 1.0

/-- `AsteroidRiskCalculator._calculate_velocity_score`. -/
def calculate_velocity_score (t : RiskThresholds) (velocity_kmh : Option ℚ) : ℚ :=
  match velocity_kmh with
  | none => 0.0
  | some v =>
    if v ≥ t.velocity_critical then 20.0
    else if v ≥ t.velocity_very_high then 16.0
    else if v ≥ t.velocity_high then 12.0
    else if v ≥ t.velocity_medium then 8.0
    else if v ≥ t.velocity_low then 4.0
    else 1.0

/-- `AsteroidRiskCalculator._calculate_time_score`: returns the score and the
signed `time_to_approach` in days.  For a past approach, `timedelta.days` is
the floor of the elapsed time in days; for a future approach the fractional
day count `total_seconds() / (24 * 3600)` is used. -/
def calculate_time_score (t : RiskThresholds) (now : DateTime)
    (approach_date : Option DateTime) : ℚ × Option ℚ :=
  match approach_date with
  | none => (0.0, none)
  | some ad =>
    if ad.ts < now.ts then
      let days_past : ℤ := ⌊(now.ts - ad.ts) / 86400⌋
      if days_past ≤ 30 then (8.0, some (-(days_past : ℚ)))
      else (2.0, some (-(days_past : ℚ)))
    else
      let days_until : ℚ := (ad.ts - now.ts) / (24 * 3600)
      if days_until ≤ t.time_critical then (15.0, some days_until)
      else if days_until ≤ t.time_very_high then (12.0, some days_until)
      else if days_until ≤ t.time_high then (8.0, some days_until)
      else if days_until ≤ t.time_medium then (4.0, some days_until)
      else (1.0, some days_until)

/-- `AsteroidRiskCalculator._calculate_nasa_classification_score`. -/
def calculate_nasa_classification_score
    (is_potentially_hazardous is_sentry_object : Bool) : ℚ :=
  min ((if is_sentry_object then (10.0 : ℚ) else 0) +
       (if is_potentially_hazardous then (5.0 : ℚ) else 0)) 15.0

/-- `AsteroidRiskCalculator._apply_modifiers`: the proximity-size bonus uses
Python truthiness (`diameter_km and diameter_km > 0.5 and miss_distance_km
and miss_distance_km < 1000000`), the confidence penalties key on the
arguments being `None`, and the score is clamped to `[0, 100]`.  The
`factor_scores` parameter is accepted as in the source but never read. -/
def apply_modifiers (base_score : ℚ) (factor_scores : List (String × ℚ))
    (diameter_km miss_distance_km : Option ℚ) : ℚ × ℚ :=
  let bonus : Bool :=
    truthyAnd diameter_km (fun d => decide (d > 0.5)) &&
    truthyAnd miss_distance_km (fun m => decide (m < 1000000))
  let modified_score := if bonus then base_score + 5.0 else base_score
  let missing_data_penalty : ℚ :=
    (if diameter_km = none then 0.3 else 0) +
    (if miss_distance_km = none then 0.2 else 0)
  let confidence := max 0.1 (1.0 - missing_data_penalty)
  (max 0.0 (min 100.0 modified_score), confidence)

/-- `AsteroidRiskCalculator._determine_risk_level`. -/
def determine_risk_level (score : ℚ) : String :=
  if score ≥ 90 then "critical"
  else if score ≥ 70 then "very_high"
  else if score ≥ 50 then "high"
  else if score ≥ 30 then "medium"
  else if score ≥ 10 then "low"
  else "very_low"

/-- `AsteroidRiskCalculator._analyze_qualitative_factors`: three independent
lists of static messages, each entry gated by a truthiness-guarded test. -/
def analyze_qualitative_factors (factor_scores : List (String × ℚ))
    (diameter_km miss_distance_km velocity_kmh : Option ℚ)
    (is_potentially_hazardous : Bool) (time_to_approach : Option ℚ) :
    List String × List String × List String :=
  let concerns :=
    (if truthyAnd diameter_km (fun d => decide (d > 1.0)) then
      ["Asteroide de gran tamaño con potencial devastador"] else []) ++
    (if truthyAnd miss_distance_km (fun m => decide (m < 400000)) then
      ["Aproximación extremadamente cercana"] else []) ++
    (if truthyAnd velocity_kmh (fun v => decide (v > 100000)) then
      ["Velocidad de impacto muy alta"] else []) ++
    (if truthyAnd time_to_approach (fun x => decide (0 < x) && decide (x < 365)) then
      ["Aproximación inminente"] else [])
  let risk_factors :=
    (if is_potentially_hazardous then
      ["Clasificado como Potencialmente Peligroso por NASA"] else []) ++
    (if ((factor_scores.lookup "size").getD 0) > 15 then
      ["Tamaño significativo"] else []) ++
    (if ((factor_scores.lookup "distance").getD 0) > 15 then
      ["Proximidad notable a la Tierra"] else [])
  let mitigating :=
    (if truthyAnd miss_distance_km (fun m => decide (m > 10000000)) then
      ["Distancia de paso segura"] else []) ++
    (if truthyAnd diameter_km (fun d => decide (d < 0.01)) then
      ["Tamaño muy pequeño, impacto mínimo"] else []) ++
    (if truthyAnd time_to_approach (fun x => decide (x > 3650)) then
      ["Aproximación en futuro distante"] else [])
  (concerns, risk_factors, mitigating)

/-- `AsteroidRiskCalculator._determine_monitoring_recommendations`: base
mapping from the risk level, then the within-30-days override (truthiness
guarded, strict `0 < t < 30`).  The `score` parameter is accepted as in the
source but never read. -/
def determine_monitoring_recommendations (score : ℚ) (risk_level : String)
    (time_to_approach : Option ℚ) : String × String :=
  let base : String × String :=
    if risk_level = "critical" || risk_level = "very_high" then ("critical", "daily")
    else if risk_level = "high" then ("high", "weekly")
    else if risk_level = "medium" then ("medium", "monthly")
    else ("low", "yearly")
  if truthyAnd time_to_approach (fun x => decide (0 < x) && decide (x < 30)) then
    (if base.1 = "low" then "medium" else base.1, "daily")
  else base

/-- `AsteroidRiskCalculator._determine_approach_decade`: Python `//` is floor
division, hence `Int.fdiv`. -/
def determine_approach_decade (approach_date : Option DateTime) : Option String :=
  approach_date.map (fun ad => toString (Int.fdiv ad.year 10 * 10) ++ "s")

/-- `AsteroidRiskCalculator.calculate_risk`, parameterized by the magnitude
estimator `est`, the thresholds and the clock instant `now`.  The trailing
`additional_factors` argument models the `**additional_factors` keyword
arguments, which the source accepts but never reads. -/
def calculate_risk (est : ℚ → ℚ) (t : RiskThresholds) (now : DateTime)
    (diameter_km miss_distance_km velocity_kmh : Option ℚ)
    (approach_date : Option DateTime)
    (is_potentially_hazardous is_sentry_object : Bool)
    (absolute_magnitude : Option ℚ)
    (additional_factors : List (String × ℚ)) : RiskAnalysis :=
  let size_score := calculate_size_score est t diameter_km absolute_magnitude
  let distance_score := calculate_distance_score t miss_distance_km
  let velocity_score := calculate_velocity_score t velocity_kmh
  let time_pair := calculate_time_score t now approach_date
  let time_score := time_pair.1
  let time_to_approach := time_pair.2
  let nasa_score :=
    calculate_nasa_classification_score is_potentially_hazardous is_sentry_object
  let factor_scores : List (String × ℚ) :=
    [("size", size_score), ("distance", distance_score),
     ("velocity", velocity_score), ("time_to_approach", time_score),
     ("nasa_classification", nasa_score)]
  let base_score := (factor_scores.map Prod.snd).sum
  let modifier_pair := apply_modifiers base_score factor_scores diameter_km miss_distance_km
  let final_score := modifier_pair.1
  let confidence := modifier_pair.2
  let risk_level := determine_risk_level final_score
  let qualitative := analyze_qualitative_factors factor_scores diameter_km
    miss_distance_km velocity_kmh is_potentially_hazardous time_to_approach
  let monitoring := determine_monitoring_recommendations final_score risk_level
    time_to_approach
  { overall_score := pyRound 1 final_score
    risk_level := risk_level
    confidence := pyRound 2 confidence
    factor_scores := factor_scores.map (fun kv => (kv.1, pyRound 1 kv.2))
    primary_concerns := qualitative.1
    risk_factors := qualitative.2.1
    mitigating_factors := qualitative.2.2
    time_to_approach_days := time_to_approach
    approach_decade := determine_approach_decade approach_date
    monitoring_priority := monitoring.1
    observation_frequency := monitoring.2 }

/-- `AsteroidRiskCalculator.calculate_impact_energy`: kinetic energy of a
uniform sphere in megatons TNT.  Uses the real `π` of the source's
`math.pi`. -/
noncomputable def calculate_impact_energy
    (diameter_km velocity_kms density_kg_m3 : ℝ) : ℝ :=
  let radius_m := (diameter_km * 1000) / 2
  let volume_m3 := (4/3) * Real.pi * radius_m ^ 3
  let mass_kg := volume_m3 * density_kg_m3
  let velocity_ms := velocity_kms * 1000
  let energy_joules := 0.5 * mass_kg * velocity_ms ^ 2
  energy_joules / 4.184e15

/-- Python exceptions as observed by the engine: members of the repository's
`NEOTrackerException` hierarchy carry their class name, message and optional
original cause; everything else is a plain Python exception. -/
inductive PyError where
  | neo (kind message : String) (original : Option String)
  | plain (message : String)
deriving DecidableEq

/-- Class name of a `NEOTrackerException`, `none` for plain exceptions. -/
def PyError.kind : PyError → Option String
  | .neo k _ _ => some k
  | .plain _ => none

/-- The `handle_exceptions(reraise_as=...)` decorator of
`core/exceptions.py` applied to one call: `NEOTrackerException`s pass
through unchanged, and any other exception is wrapped once into the
`reraise_kind` exception with message `"Error in " ++ funcName` and the
original exception recorded. -/
def handle_exceptions (funcName reraise_kind : String)
    (body : Except PyError α) : Except PyError α :=
  match body with
  | .ok a => .ok a
  | .error (.neo k m o) => .error (.neo k m o)
  | .error (.plain m) =>
    .error (.neo reraise_kind ("Error in " ++ funcName) (some m))

/-- The degraded `RiskAnalysis` built by `batch_risk_calculation` when an
item fails with `RiskCalculationError`. -/
def error_analysis : RiskAnalysis :=
  { overall_score := 0.0
    risk_level := "unknown"
    confidence := 0.0
    factor_scores := []
    primary_concerns := ["Error en cálculo de riesgo"]
    risk_factors := []
    mitigating_factors := []
    time_to_approach_days := none
    approach_decade := none
    monitoring_priority := "low"
    observation_frequency := "yearly" }

/-- `batch_risk_calculation`: one engine call per item; an item failing with
`RiskCalculationError` contributes `error_analysis` instead, any other
escaping exception aborts the whole batch (the `for` loop propagates it). -/
def batch_risk_calculation (calcRisk : I → Except PyError RiskAnalysis) :
    List I → Except PyError (List RiskAnalysis)
  | [] => .ok []
  | x :: rest =>
    match calcRisk x with
    | .ok a => (batch_risk_calculation calcRisk rest).map (fun l => a :: l)
    | .error e =>
      if e.kind = some "RiskCalculationError" then
        (batch_risk_calculation calcRisk rest).map (fun l => error_analysis :: l)
      else .error e

/-- Concrete clock instant used in witnesses: the POSIX epoch. -/
def dt_epoch : DateTime := ⟨0, 1970⟩

/-- Concrete approach date 1826 days (about 5 years) after `dt_epoch`. -/
def dt_plus_1826d : DateTime := ⟨1826 * 86400, 1975⟩

/-- Concrete approach date exactly 1 day after `dt_epoch`. -/
def dt_plus_1d : DateTime := ⟨86400, 1970⟩

/-- Concrete approach date exactly 30 days after `dt_epoch`. -/
def dt_plus_30d : DateTime := ⟨30 * 86400, 1970⟩

/-- A concrete successful analysis (the all-inputs-missing call), used as the
healthy item of the batch witness. -/
def analysis_nodata : RiskAnalysis :=
  calculate_risk estimator_pow5 default_thresholds dt_epoch
    none none none none false false none []

/-- A concrete engine body for the batch witness: item `false` fails with a
plain Python exception, item `true` succeeds. -/
def risk_body_sample : Bool → Except PyError RiskAnalysis
  | false => .error (.plain "boom")
  | true => .ok analysis_nodata

/-! Helper lemmas about the rounding model and the modifier stage. -/

theorem fract_eq_sub_floor (x : ℚ) : Int.fract x = x - ⌊x⌋ := rfl

theorem roundHalfEven_intCast (n : ℤ) : roundHalfEven (n : ℚ) = n := by
  simp [roundHalfEven, Int.fract_intCast, Int.floor_intCast]

theorem pyRound_eq_self (nd : ℕ) (q : ℚ) (n : ℤ) (h : q * 10 ^ nd = (n : ℚ)) :
    pyRound nd q = q := by
  have h10 : (10 : ℚ) ^ nd ≠ 0 := by positivity
  rw [pyRound, h, roundHalfEven_intCast, ← h]
  field_simp

theorem le_roundHalfEven {x : ℚ} {A : ℤ} (hA : (A : ℚ) ≤ x) : A ≤ roundHalfEven x := by
  have h : A ≤ ⌊x⌋ := Int.le_floor.mpr hA
  unfold roundHalfEven
  split_ifs <;> omega

theorem roundHalfEven_le {x : ℚ} {B : ℤ} (hB : x ≤ (B : ℚ)) : roundHalfEven x ≤ B := by
  have hfl : ⌊x⌋ ≤ B := by
    have h := Int.floor_mono hB
    simpa using h
  have hkey : 1/2 ≤ Int.fract x → ⌊x⌋ + 1 ≤ B := by
    intro hf
    rw [fract_eq_sub_floor] at hf
    have h2 : (⌊x⌋ : ℚ) < (B : ℚ) := by linarith
    have h3 : ⌊x⌋ < B := by exact_mod_cast h2
    omega
  unfold roundHalfEven
  split_ifs with h1 h2 h3
  · exact hfl
  · exact hkey (le_of_lt h2)
  · exact hfl
  · exact hkey (le_of_not_lt h1)

theorem pyRound_bounds (nd : ℕ) (A B : ℤ) (x : ℚ)
    (hA : (A : ℚ) ≤ x * 10 ^ nd) (hB : x * 10 ^ nd ≤ (B : ℚ)) :
    (A : ℚ) / 10 ^ nd ≤ pyRound nd x ∧ pyRound nd x ≤ (B : ℚ) / 10 ^ nd := by
  have hp : (0 : ℚ) < 10 ^ nd := by positivity
  have h1 := le_roundHalfEven hA
  have h2 := roundHalfEven_le hB
  unfold pyRound
  constructor
  · exact (div_le_div_right hp).mpr (by exact_mod_cast h1)
  · exact (div_le_div_right hp).mpr (by exact_mod_cast h2)

theorem apply_modifiers_fst_bounds (b : ℚ) (fs : List (String × ℚ)) (d m : Option ℚ) :
    0 ≤ (apply_modifiers b fs d m).1 ∧ (apply_modifiers b fs d m).1 ≤ 100 := by
  unfold apply_modifiers
  constructor
  · exact le_trans (by norm_num) (le_max_left (0.0 : ℚ) _)
  · exact max_le (by norm_num) (le_trans (min_le_left (100.0 : ℚ) _) (by norm_num))

theorem apply_modifiers_snd_bounds (b : ℚ) (fs : List (String × ℚ)) (d m : Option ℚ) :
    1/10 ≤ (apply_modifiers b fs d m).2 ∧ (apply_modifiers b fs d m).2 ≤ 1 := by
  unfold apply_modifiers
  constructor
  · exact le_trans (by norm_num) (le_max_left (0.1 : ℚ) _)
  · refine max_le (by norm_num) ?_
    have h : (0 : ℚ) ≤ (if d = none then (0.3 : ℚ) else 0) +
        (if m = none then (0.2 : ℚ) else 0) := by
      split_ifs <;> norm_num
    linarith

theorem pyRound1_apply_modifiers_bounds (b : ℚ) (fs : List (String × ℚ))
    (d m : Option ℚ) :
    0 ≤ pyRound 1 (apply_modifiers b fs d m).1 ∧
    pyRound 1 (apply_modifiers b fs d m).1 ≤ 100 := by
  obtain ⟨h1, h2⟩ := apply_modifiers_fst_bounds b fs d m
  have h := pyRound_bounds 1 0 1000 ((apply_modifiers b fs d m).1)
    (by push_cast; linarith) (by push_cast; linarith)
  constructor
  · refine le_trans (le_of_eq ?_) h.1
    norm_num
  · refine le_trans h.2 (le_of_eq ?_)
    norm_num

theorem pyRound2_apply_modifiers_conf_bounds (b : ℚ) (fs : List (String × ℚ))
    (d m : Option ℚ) :
    1/10 ≤ pyRound 2 (apply_modifiers b fs d m).2 ∧
    pyRound 2 (apply_modifiers b fs d m).2 ≤ 1 := by
  obtain ⟨h1, h2⟩ := apply_modifiers_snd_bounds b fs d m
  have h := pyRound_bounds 2 10 100 ((apply_modifiers b fs d m).2)
    (by push_cast; linarith) (by push_cast; linarith)
  constructor
  · refine le_trans (le_of_eq ?_) h.1
    norm_num
  · refine le_trans h.2 (le_of_eq ?_)
    norm_num

/-- C1: for every input to `calculate_risk` (every combination of present and
absent `diameter_km`, `miss_distance_km`, `velocity_kmh`, `approach_date`,
`absolute_magnitude`, all flag values, and any estimator, thresholds and
clock), the returned `RiskAnalysis` has `overall_score` in `[0, 100]` and
`confidence` in `[0.1, 1.0]`, including after the final rounding of the
score to 1 decimal and of the confidence to 2 decimals. -/
theorem c1_score_confidence_bounds (est : ℚ → ℚ) (t : RiskThresholds)
    (now : DateTime) (d m v : Option ℚ) (ad : Option DateTime) (ph so : Bool)
    (am : Option ℚ) (ex : List (String × ℚ)) :
    0 ≤ (calculate_risk est t now d m v ad ph so am ex).overall_score ∧
    (calculate_risk est t now d m v ad ph so am ex).overall_score ≤ 100 ∧
    1/10 ≤ (calculate_risk est t now d m v ad ph so am ex).confidence ∧
    (calculate_risk est t now d m v ad ph so am ex).confidence ≤ 1 := by
  dsimp only [calculate_risk]
  exact ⟨(pyRound1_apply_modifiers_bounds _ _ _ _).1,
         (pyRound1_apply_modifiers_bounds _ _ _ _).2,
         (pyRound2_apply_modifiers_conf_bounds _ _ _ _).1,
         (pyRound2_apply_modifiers_conf_bounds _ _ _ _).2⟩

/-- C10: the extra keyword arguments accepted through `**additional_factors`
have no effect: two calls of `calculate_risk` agreeing on all named
parameters, the thresholds, the estimator and the clock instant return equal
`RiskAnalysis` values whatever the additional keyword arguments are. -/
theorem c10_additional_factors_ignored (est : ℚ → ℚ) (t : RiskThresholds)
    (now : DateTime) (d m v : Option ℚ) (ad : Option DateTime) (ph so : Bool)
    (am : Option ℚ) (ex1 ex2 : List (String × ℚ)) :
    calculate_risk est t now d m v ad ph so am ex1 =
    calculate_risk est t now d m v ad ph so am ex2 := rfl

/-- Evaluation of the time score for a future approach between one and ten
years out (the band of the default `time_medium` threshold). -/
theorem time_score_decade (now ad : DateTime) (h1 : ¬ ad.ts < now.ts)
    (h2 : 365 < (ad.ts - now.ts) / (24*3600))
    (h3 : (ad.ts - now.ts) / (24*3600) ≤ 3650) :
    calculate_time_score default_thresholds now (some ad) =
      (4.0, some ((ad.ts - now.ts) / (24*3600))) := by
  have hn7 : ¬ ((ad.ts - now.ts) / (24*3600) ≤ (7:ℚ)) := by linarith
  have hn30 : ¬ ((ad.ts - now.ts) / (24*3600) ≤ (30:ℚ)) := by linarith
  have hn365 : ¬ ((ad.ts - now.ts) / (24*3600) ≤ (365:ℚ)) := by linarith
  dsimp only [calculate_time_score, default_thresholds]
  rw [if_neg h1, if_neg hn7, if_neg hn30, if_neg hn365, if_pos h3]

/-- C2 counterexample: on the Apophis-like scenario (diameter 0.37 km, miss
distance 31000 km, velocity 23800 km/h, approach 1826 days out, hazardous)
with the default thresholds, the distance factor score is 25 (31000 is below
`distance_critical = 100000`), not 20 as claimed, and the velocity factor
score is 4 (23800 is below `velocity_medium = 25000`), not 8 as claimed. -/
theorem c2_scenario_counterexample :
    (calculate_risk estimator_pow5 default_thresholds dt_epoch (some 0.37)
      (some 31000) (some 23800) (some dt_plus_1826d) true false none
      []).factor_scores.lookup "distance" ≠ some 20 ∧
    (calculate_risk estimator_pow5 default_thresholds dt_epoch (some 0.37)
      (some 31000) (some 23800) (some dt_plus_1826d) true false none
      []).factor_scores.lookup "velocity" ≠ some 8 := by
  constructor <;>
  · norm_num [calculate_risk, calculate_size_score, calculate_size_score.size_ladder,
      calculate_distance_score, calculate_velocity_score, calculate_time_score,
      calculate_nasa_classification_score, apply_modifiers, truthyAnd,
      default_thresholds, dt_epoch, dt_plus_1826d, pyRound, roundHalfEven,
      Int.fract_ofNat, Int.floor_ofNat, List.lookup]
    decide

/-- C2 as amended: on the Apophis-like scenario with default thresholds, the
factor scores are size 18, distance 25 (not 20: 31000 ≤ 100000 hits the
critical distance band), velocity 4 (not 8: 23800 < 25000 falls below the
medium velocity threshold), time 4, nasa 5 (hence at least 5), and the risk
level is in the claimed set `{high, very_high}`. -/
theorem c2_amended_scenario (est : ℚ → ℚ) (now ad : DateTime)
    (ex : List (String × ℚ)) (h1 : now.ts < ad.ts)
    (h2 : 365 < (ad.ts - now.ts) / (24*3600))
    (h3 : (ad.ts - now.ts) / (24*3600) ≤ 3650) :
    (calculate_risk est default_thresholds now (some 0.37) (some 31000)
      (some 23800) (some ad) true false none ex).factor_scores =
      [("size", 18), ("distance", 25), ("velocity", 4), ("time_to_approach", 4),
       ("nasa_classification", 5)] ∧
    ((calculate_risk est default_thresholds now (some 0.37) (some 31000)
      (some 23800) (some ad) true false none ex).risk_level = "high" ∨
     (calculate_risk est default_thresholds now (some 0.37) (some 31000)
      (some 23800) (some ad) true false none ex).risk_level = "very_high") := by
  have ht := time_score_decade now ad (not_lt.mpr (le_of_lt h1)) h2 h3
  dsimp only [calculate_risk]
  rw [ht]
  norm_num [calculate_size_score, calculate_size_score.size_ladder,
    calculate_distance_score, calculate_velocity_score,
    calculate_nasa_classification_score, apply_modifiers, truthyAnd,
    default_thresholds, determine_risk_level, pyRound, roundHalfEven,
    Int.fract_ofNat, Int.floor_ofNat]

/-- C2 witness: the amended scenario instantiated at the concrete epoch clock
and an approach 1826 days later. -/
theorem c2_amended_witness :
    (calculate_risk estimator_pow5 default_thresholds dt_epoch (some 0.37)
      (some 31000) (some 23800) (some dt_plus_1826d) true false none
      []).factor_scores =
      [("size", 18), ("distance", 25), ("velocity", 4), ("time_to_approach", 4),
       ("nasa_classification", 5)] ∧
    ((calculate_risk estimator_pow5 default_thresholds dt_epoch (some 0.37)
      (some 31000) (some 23800) (some dt_plus_1826d) true false none
      []).risk_level = "high" ∨
     (calculate_risk estimator_pow5 default_thresholds dt_epoch (some 0.37)
      (some 31000) (some 23800) (some dt_plus_1826d) true false none
      []).risk_level = "very_high") :=
  c2_amended_scenario estimator_pow5 dt_epoch dt_plus_1826d []
    (by norm_num [dt_epoch, dt_plus_1826d])
    (by norm_num [dt_epoch, dt_plus_1826d])
    (by norm_num [dt_epoch, dt_plus_1826d])

/-- C3 counterexample: on the tiny-distant scenario (diameter 0.01 km, miss
distance 5,000,000 km, velocity 15,000 km/h, no approach date, flags false)
with the default thresholds the overall score is 20, not 15, and the
distance score is 10 (5,000,000 ≤ `distance_medium` = 7,704,000), not 5. -/
theorem c3_scenario_counterexample :
    (calculate_risk estimator_pow5 default_thresholds dt_epoch (some 0.01)
      (some 5000000) (some 15000) none false false none
      []).overall_score ≠ 15 ∧
    (calculate_risk estimator_pow5 default_thresholds dt_epoch (some 0.01)
      (some 5000000) (some 15000) none false false none
      []).factor_scores.lookup "distance" ≠ some 5 := by
  constructor
  · norm_num [calculate_risk, calculate_size_score, calculate_size_score.size_ladder,
      calculate_distance_score, calculate_velocity_score, calculate_time_score,
      calculate_nasa_classification_score, apply_modifiers, truthyAnd,
      default_thresholds, pyRound, roundHalfEven,
      Int.fract_ofNat, Int.floor_ofNat]
  · norm_num [calculate_risk, calculate_size_score, calculate_size_score.size_ladder,
      calculate_distance_score, calculate_velocity_score, calculate_time_score,
      calculate_nasa_classification_score, apply_modifiers, truthyAnd,
      default_thresholds, pyRound, roundHalfEven,
      Int.fract_ofNat, Int.floor_ofNat, List.lookup]
    decide

/-- C3 as amended: on the tiny-distant scenario with default thresholds the
factor scores are size 6, distance 10 (not 5), velocity 4, time 0, nasa 0,
hence `overall_score = 20` (not 15) and `risk_level = "low"`; the mitigating
list is empty at diameter exactly 0.01 km, and in general the very-small-size
mitigating entry appears only when the diameter is strictly below 0.01. -/
theorem c3_amended_scenario (est : ℚ → ℚ) (now : DateTime)
    (ex : List (String × ℚ)) :
    (calculate_risk est default_thresholds now (some 0.01) (some 5000000)
      (some 15000) none false false none ex).factor_scores =
      [("size", 6), ("distance", 10), ("velocity", 4), ("time_to_approach", 0),
       ("nasa_classification", 0)] ∧
    (calculate_risk est default_thresholds now (some 0.01) (some 5000000)
      (some 15000) none false false none ex).overall_score = 20 ∧
    (calculate_risk est default_thresholds now (some 0.01) (some 5000000)
      (some 15000) none false false none ex).risk_level = "low" ∧
    (calculate_risk est default_thresholds now (some 0.01) (some 5000000)
      (some 15000) none false false none ex).mitigating_factors = [] ∧
    (∀ (fs : List (String × ℚ)) (dv : ℚ) (m v : Option ℚ) (ph : Bool)
      (tta : Option ℚ),
      "Tamaño muy pequeño, impacto mínimo" ∈
        (analyze_qualitative_factors fs (some dv) m v ph tta).2.2 →
      dv < 0.01) := by
  refine ⟨?_, ?_, ?_, ?_, ?_⟩
  · norm_num [calculate_risk, calculate_size_score, calculate_size_score.size_ladder,
      calculate_distance_score, calculate_velocity_score, calculate_time_score,
      calculate_nasa_classification_score, apply_modifiers, truthyAnd,
      default_thresholds, pyRound, roundHalfEven, Int.fract_ofNat, Int.floor_ofNat]
  · norm_num [calculate_risk, calculate_size_score, calculate_size_score.size_ladder,
      calculate_distance_score, calculate_velocity_score, calculate_time_score,
      calculate_nasa_classification_score, apply_modifiers, truthyAnd,
      default_thresholds, pyRound, roundHalfEven, Int.fract_ofNat, Int.floor_ofNat]
  · norm_num [calculate_risk, calculate_size_score, calculate_size_score.size_ladder,
      calculate_distance_score, calculate_velocity_score, calculate_time_score,
      calculate_nasa_classification_score, apply_modifiers, truthyAnd,
      default_thresholds, determine_risk_level, pyRound, roundHalfEven,
      Int.fract_ofNat, Int.floor_ofNat]
  · norm_num [calculate_risk, calculate_time_score, analyze_qualitative_factors,
      truthyAnd]
  · intro fs dv m v ph tta h
    simp [analyze_qualitative_factors, truthyAnd] at h
    have h2 := h.2
    norm_num at h2 ⊢
    linarith

/-- C3 witness: the amended scenario at the concrete epoch clock, plus the
boundary direction applied at diameter 0.005 km, where the very-small-size
entry is present and the bound 0.005 < 0.01 follows. -/
theorem c3_amended_witness :
    (calculate_risk estimator_pow5 default_thresholds dt_epoch (some 0.01)
      (some 5000000) (some 15000) none false false none
      []).overall_score = 20 ∧ (1/200 : ℚ) < 0.01 :=
  ⟨(c3_amended_scenario estimator_pow5 dt_epoch []).2.1,
   (c3_amended_scenario estimator_pow5 dt_epoch []).2.2.2.2 [] (1/200) none none
     false none (by simp [analyze_qualitative_factors, truthyAnd]; norm_num)⟩

/-- Confidence component of the modifier stage when the diameter argument is
absent and the miss distance is present: the 0.3 penalty applies. -/
theorem apply_modifiers_conf_no_diameter (b : ℚ) (fs : List (String × ℚ))
    (mv : ℚ) : (apply_modifiers b fs none (some mv)).2 = 7/10 := by
  dsimp only [apply_modifiers]
  rw [if_pos rfl, if_neg (by simp : ¬ (some mv = none))]
  norm_num

/-- Confidence component of the modifier stage when both the diameter and the
miss distance arguments are absent: penalties 0.3 and 0.2 both apply. -/
theorem apply_modifiers_conf_no_data (b : ℚ) (fs : List (String × ℚ)) :
    (apply_modifiers b fs none none).2 = 1/2 := by
  dsimp only [apply_modifiers]
  rw [if_pos rfl, if_pos rfl]
  norm_num

/-- C4 counterexample: with `diameter_km` absent but `absolute_magnitude = 25`
present (the source estimator then yields the exact diameter 0.02658 km,
which is scored for the size factor), the claim predicts confidence 1.0 (no
0.3 deduction), but `_apply_modifiers` keys the deduction on the original
`diameter_km` argument being `None`, so the confidence is 0.7. -/
theorem c4_estimated_diameter_counterexample :
    (calculate_risk estimator_pow5 default_thresholds dt_epoch none (some 1000)
      none none false false (some 25) []).confidence ≠ 1 := by
  dsimp only [calculate_risk]
  rw [apply_modifiers_conf_no_diameter,
    pyRound_eq_self 2 _ 70 (by norm_num)]
  norm_num

/-- C4 as amended: the 0.3 confidence deduction applies exactly when the
`diameter_km` argument is absent, whether or not an absolute magnitude is
present and an estimated diameter is used for the size score; and when both
`diameter_km` and `absolute_magnitude` are absent the size factor score is 0.
With the miss distance present the confidence is `1 − 0.3 = 0.7`, with it
absent `1 − 0.3 − 0.2 = 0.5`, in both magnitude cases. -/
theorem c4_amended_confidence_deduction (est : ℚ → ℚ) (t : RiskThresholds)
    (now : DateTime) (mv : ℚ) (m v : Option ℚ) (ad : Option DateTime)
    (ph so : Bool) (H : ℚ) (ex : List (String × ℚ)) :
    (calculate_risk est t now none (some mv) v ad ph so (some H) ex).confidence = 7/10 ∧
    (calculate_risk est t now none none v ad ph so (some H) ex).confidence = 1/2 ∧
    (calculate_risk est t now none (some mv) v ad ph so none ex).confidence = 7/10 ∧
    (calculate_risk est t now none none v ad ph so none ex).confidence = 1/2 ∧
    (calculate_risk est t now none m v ad ph so none ex).factor_scores.lookup
      "size" = some 0 := by
  refine ⟨?_, ?_, ?_, ?_, ?_⟩
  · dsimp only [calculate_risk]
    rw [apply_modifiers_conf_no_diameter,
      pyRound_eq_self 2 _ 70 (by norm_num)]
  · dsimp only [calculate_risk]
    rw [apply_modifiers_conf_no_data,
      pyRound_eq_self 2 _ 50 (by norm_num)]
  · dsimp only [calculate_risk]
    rw [apply_modifiers_conf_no_diameter,
      pyRound_eq_self 2 _ 70 (by norm_num)]
  · dsimp only [calculate_risk]
    rw [apply_modifiers_conf_no_data,
      pyRound_eq_self 2 _ 50 (by norm_num)]
  · dsimp only [calculate_risk, calculate_size_score]
    norm_num [List.lookup, pyRound, roundHalfEven]

/-- C5 counterexample: with diameter 1 km (present, > 0.5) and miss distance
0 km (present, below 1,000,000), the claim predicts the +5 bonus, so base
score 0 would become 5; but Python truthiness treats `miss_distance_km = 0.0`
as falsy, no bonus is applied, and the clamped score stays 0. -/
theorem c5_zero_distance_counterexample :
    (apply_modifiers 0 [] (some 1) (some 0)).1 ≠ 5 := by
  norm_num [apply_modifiers, truthyAnd]

/-- C5 as amended: for present inputs the +5 proximity-size bonus is added to
the base score if and only if `diameter_km > 0.5` and `miss_distance_km <
1,000,000` and additionally `miss_distance_km ≠ 0` (Python truthiness); in
particular diameter exactly 0.5 gives no bonus, and diameter 0.5000001 with
a nonzero miss distance below 1,000,000 gives the bonus.  Stated for base
scores in `[0, 95]`, where the clamp to `[0, 100]` is inactive. -/
theorem c5_amended_bonus_iff (base : ℚ) (fs : List (String × ℚ)) (dv mv : ℚ)
    (h0 : 0 ≤ base) (h95 : base ≤ 95) :
    (apply_modifiers base fs (some dv) (some mv)).1 =
      base + (if 0.5 < dv ∧ mv ≠ 0 ∧ mv < 1000000 then 5 else 0) := by
  dsimp only [apply_modifiers, truthyAnd]
  simp only [Bool.and_eq_true, decide_eq_true_eq]
  split_ifs with h1 h2 h3
  · rw [min_eq_right (by linarith), max_eq_right (by linarith)]
    norm_num
  · exact absurd ⟨h1.1.2, h1.2.1, h1.2.2⟩ h2
  · exact absurd ⟨⟨(lt_trans (by norm_num : (0:ℚ) < 0.5) h3.1).ne', h3.1⟩,
      h3.2.1, h3.2.2⟩ h1
  · rw [min_eq_right (by linarith), max_eq_right (by linarith)]
    norm_num

/-- C5 witness: the amended bonus rule instantiated at base 0 with diameter
0.5000001 and miss distance 500000 (bonus applies: score 5), and at diameter
exactly 0.5 (no bonus: score 0). -/
theorem c5_amended_bonus_iff_witness :
    (apply_modifiers 0 [] (some 0.5000001) (some 500000)).1 = 5 ∧
    (apply_modifiers 0 [] (some 0.5) (some 500000)).1 = 0 := by
  constructor
  · rw [c5_amended_bonus_iff 0 [] 0.5000001 500000 (by norm_num) (by norm_num)]
    norm_num
  · rw [c5_amended_bonus_iff 0 [] 0.5 500000 (by norm_num) (by norm_num)]
    norm_num

/-- For any future (or simultaneous) approach, the reported
`time_to_approach` is the fractional day count, whatever the score band. -/
theorem time_score_snd_future (t : RiskThresholds) (now ad : DateTime)
    (h : ¬ ad.ts < now.ts) :
    (calculate_time_score t now (some ad)).2 =
      some ((ad.ts - now.ts) / (24*3600)) := by
  dsimp only [calculate_time_score]
  rw [if_neg h]
  split_ifs <;> rfl

/-- The monitoring override for a time to approach strictly between 0 and 30
days: the frequency is forced to daily, and the priority is never "low". -/
theorem dmr_override (score : ℚ) (level : String) (tta : ℚ)
    (h1 : 0 < tta) (h2 : tta < 30) :
    (determine_monitoring_recommendations score level (some tta)).2 = "daily" ∧
    (determine_monitoring_recommendations score level (some tta)).1 ≠ "low" := by
  have hb : truthyAnd (some tta) (fun x => decide (0 < x) && decide (x < 30)) = true := by
    simp only [truthyAnd, Bool.and_eq_true, decide_eq_true_eq]
    exact ⟨h1.ne', h1, h2⟩
  dsimp only [determine_monitoring_recommendations]
  rw [if_pos hb]
  refine ⟨rfl, ?_⟩
  split_ifs <;> simp_all

/-- C6: the monitoring override is strict.  For every time to approach
strictly between 0 and 30 days, `_determine_monitoring_recommendations`
forces the observation frequency to daily and upgrades the priority from
"low" to "medium", leaving the other priorities unchanged; at exactly 30
days the recommendation is identical to the no-approach-time one (no
override); and for every `calculate_risk` input whose future approach is
strictly less than 30 days away the resulting frequency is daily and the
priority is not "low". -/
theorem c6_monitoring_override_strict :
    (∀ (score : ℚ) (level : String) (tta : ℚ), 0 < tta → tta < 30 →
      (determine_monitoring_recommendations score level (some tta)).2 = "daily" ∧
      (determine_monitoring_recommendations score level (some tta)).1 =
        (if (determine_monitoring_recommendations score level none).1 = "low"
         then "medium"
         else (determine_monitoring_recommendations score level none).1)) ∧
    (∀ (score : ℚ) (level : String),
      determine_monitoring_recommendations score level (some 30) =
        determine_monitoring_recommendations score level none) ∧
    (∀ (est : ℚ → ℚ) (t : RiskThresholds) (now : DateTime) (d m v : Option ℚ)
      (ph so : Bool) (am : Option ℚ) (ex : List (String × ℚ)) (ad : DateTime),
      now.ts < ad.ts → (ad.ts - now.ts) / (24*3600) < 30 →
      (calculate_risk est t now d m v (some ad) ph so am ex).observation_frequency
        = "daily" ∧
      (calculate_risk est t now d m v (some ad) ph so am ex).monitoring_priority
        ≠ "low") := by
  refine ⟨?_, ?_, ?_⟩
  · intro score level tta h1 h2
    have hb : truthyAnd (some tta)
        (fun x => decide (0 < x) && decide (x < 30)) = true := by
      simp only [truthyAnd, Bool.and_eq_true, decide_eq_true_eq]
      exact ⟨h1.ne', h1, h2⟩
    dsimp only [determine_monitoring_recommendations]
    rw [if_pos hb, if_neg (by simp [truthyAnd] : ¬ (truthyAnd none
      (fun x => decide (0 < x) && decide (x < 30)) = true))]
    exact ⟨rfl, rfl⟩
  · intro score level
    have h30 : ¬ (truthyAnd (some 30)
        (fun x => decide (0 < x) && decide (x < 30)) = true) := by
      norm_num [truthyAnd]
    have hnone : ¬ (truthyAnd (none : Option ℚ)
        (fun x => decide (0 < x) && decide (x < 30)) = true) := by
      simp [truthyAnd]
    dsimp only [determine_monitoring_recommendations]
    rw [if_neg h30, if_neg hnone]
  · intro est t now d m v ph so am ex ad h1 h2
    have hd : (0:ℚ) < (ad.ts - now.ts) / (24*3600) := by
      apply div_pos (by linarith) (by norm_num)
    have hsnd := time_score_snd_future t now ad (not_lt.mpr h1.le)
    dsimp only [calculate_risk]
    rw [hsnd]
    exact ⟨(dmr_override _ _ _ hd h2).1, (dmr_override _ _ _ hd h2).2⟩

/-- C6 witness: the override at 10 days and score 5 on a "very_low" level,
the identity at exactly 30 days, and the daily frequency of a full
`calculate_risk` call whose approach is 1 day away. -/
theorem c6_monitoring_override_strict_witness :
    (determine_monitoring_recommendations 5 "very_low" (some 10)).2 = "daily" ∧
    determine_monitoring_recommendations 5 "very_low" (some 30) =
      determine_monitoring_recommendations 5 "very_low" none ∧
    (calculate_risk estimator_pow5 default_thresholds dt_epoch none none none
      (some dt_plus_1d) false false none []).observation_frequency = "daily" :=
  ⟨(c6_monitoring_override_strict.1 5 "very_low" 10 (by norm_num) (by norm_num)).1,
   c6_monitoring_override_strict.2.1 5 "very_low",
   (c6_monitoring_override_strict.2.2 estimator_pow5 default_thresholds dt_epoch
     none none none false false none [] dt_plus_1d
     (by norm_num [dt_epoch, dt_plus_1d])
     (by norm_num [dt_epoch, dt_plus_1d])).1⟩

/-- C9: zero-valued inputs are present for the factor scorers but falsy for
the qualitative and bonus checks.  With `diameter_km = 0.0` the size factor
score is 2.0 yet the very-small-size mitigating entry never appears (despite
0 < 0.01); with `miss_distance_km = 0.0` the distance factor score is 25.0
yet the extremely-close concern never appears (despite 0 < 400,000) and the
proximity-size bonus is never applied (despite 0 < 1,000,000), for all other
inputs. -/
theorem c9_zero_value_truthiness (est : ℚ → ℚ) (now : DateTime)
    (m v : Option ℚ) (ad : Option DateTime) (ph so : Bool) (am : Option ℚ)
    (ex : List (String × ℚ)) :
    ((calculate_risk est default_thresholds now (some 0) m v ad ph so am
      ex).factor_scores.lookup "size" = some 2) ∧
    ("Tamaño muy pequeño, impacto mínimo" ∉
      (calculate_risk est default_thresholds now (some 0) m v ad ph so am
        ex).mitigating_factors) ∧
    (∀ d : Option ℚ,
      ((calculate_risk est default_thresholds now d (some 0) v ad ph so am
        ex).factor_scores.lookup "distance" = some 25) ∧
      ("Aproximación extremadamente cercana" ∉
        (calculate_risk est default_thresholds now d (some 0) v ad ph so am
          ex).primary_concerns)) ∧
    (∀ (base : ℚ) (fs : List (String × ℚ)) (d : Option ℚ),
      (apply_modifiers base fs d (some 0)).1 = max 0 (min 100 base)) := by
  refine ⟨?_, ?_, fun d => ⟨?_, ?_⟩, ?_⟩
  · dsimp only [calculate_risk, calculate_size_score,
      calculate_size_score.size_ladder]
    norm_num [List.lookup, pyRound, roundHalfEven, default_thresholds]
  · intro h
    dsimp only [calculate_risk] at h
    simp [analyze_qualitative_factors, truthyAnd] at h
  · have hbe : ("distance" == "size") = false := by decide
    dsimp only [calculate_risk, calculate_distance_score]
    norm_num [List.lookup, hbe, pyRound, roundHalfEven, default_thresholds]
  · intro h
    dsimp only [calculate_risk] at h
    simp [analyze_qualitative_factors, truthyAnd] at h
  · intro base fs d
    dsimp only [apply_modifiers, truthyAnd]
    have hb : (truthyAnd d (fun x => decide (x > 0.5)) &&
        truthyAnd (some 0) (fun x => decide (x < 1000000))) = false := by
      simp [truthyAnd]
    dsimp only [truthyAnd] at hb
    rw [hb]
    norm_num

/-- C7: when any internal computation step of `calculate_risk` raises a plain
Python exception, the `handle_exceptions(reraise_as=RiskCalculationError)`
decorator surfaces it as a single `RiskCalculationError` wrapping the
original cause, and no `RiskAnalysis` is returned for that call; and
`batch_risk_calculation` catches this per item, substituting the degraded
`error_analysis` (score 0, level "unknown", confidence 0, explanatory
concern) for the failing item and keeping every other item's result, so one
failure never aborts the batch. -/
theorem c7_error_wrapping_and_batch {I : Type} (body : I → Except PyError RiskAnalysis)
    (hplain : ∀ x e, body x = .error e → e.kind = none) :
    (∀ x msg, body x = .error (.plain msg) →
      handle_exceptions "calculate_risk" "RiskCalculationError" (body x) =
        .error (.neo "RiskCalculationError" "Error in calculate_risk" (some msg))) ∧
    (∀ items : List I,
      batch_risk_calculation
        (fun y => handle_exceptions "calculate_risk" "RiskCalculationError" (body y))
        items =
      .ok (items.map (fun x =>
        match body x with
        | .ok a => a
        | .error _ => error_analysis))) := by
  constructor
  · intro x msg hx
    rw [hx]
    rfl
  · intro items
    induction items with
    | nil => rfl
    | cons x rest ih =>
      cases hx : body x with
      | ok a =>
        have hcalc : handle_exceptions "calculate_risk" "RiskCalculationError"
            (body x) = .ok a := by rw [hx]; rfl
        simp only [batch_risk_calculation]
        rw [hcalc, ih]
        simp [hx, Except.map]
      | error e =>
        have hk := hplain x e hx
        cases e with
        | neo k msg o => simp [PyError.kind] at hk
        | plain msg =>
          have hcalc : handle_exceptions "calculate_risk" "RiskCalculationError"
              (body x) =
              .error (.neo "RiskCalculationError" "Error in calculate_risk"
                (some msg)) := by rw [hx]; rfl
          simp only [batch_risk_calculation]
          rw [hcalc, ih]
          simp [hx, PyError.kind, Except.map]

/-- C7 witness: a two-item batch whose first item fails with a plain
exception and whose second succeeds yields the degraded analysis followed by
the healthy one. -/
theorem c7_error_wrapping_and_batch_witness :
    batch_risk_calculation
      (fun y => handle_exceptions "calculate_risk" "RiskCalculationError"
        (risk_body_sample y))
      [false, true] = .ok [error_analysis, analysis_nodata] := by
  have hp : ∀ x e, risk_body_sample x = .error e → e.kind = none := by
    intro x e hx
    cases x
    · simp [risk_body_sample] at hx
      rw [← hx]
      rfl
    · simp [risk_body_sample] at hx
  have h := (c7_error_wrapping_and_batch risk_body_sample hp).2 [false, true]
  rw [h]
  rfl

/-- C8: `calculate_impact_energy` computes exactly
`(1/2) · ((4/3)·π·(diameter_km·1000/2)³ · density) · (velocity_kms·1000)² /
4.184e15` megatons for every input, and at diameter 1 km, velocity 20 km/s,
density 2000 kg/m³ the value is approximately 5.0e4 megatons (it equals
`π · 25000000 / 1569 ≈ 50057`, within 49900 and 50100). -/
theorem c8_impact_energy_formula :
    (∀ d v ρ : ℝ, calculate_impact_energy d v ρ =
      1/2 * (4/3 * Real.pi * (d * 1000 / 2)^3 * ρ) * (v * 1000)^2 / 4.184e15) ∧
    49900 < calculate_impact_energy 1 20 2000 ∧
    calculate_impact_energy 1 20 2000 < 50100 := by
  have hval : ∀ d v ρ : ℝ, calculate_impact_energy d v ρ =
      1/2 * (4/3 * Real.pi * (d * 1000 / 2)^3 * ρ) * (v * 1000)^2 / 4.184e15 := by
    intro d v ρ
    dsimp only [calculate_impact_energy]
    norm_num
  have hpi1 := Real.pi_gt_3141592
  have hpi2 := Real.pi_lt_3141593
  have h1 : calculate_impact_energy 1 20 2000 = Real.pi * (25000000 / 1569) := by
    dsimp only [calculate_impact_energy]
    ring_nf
  refine ⟨hval, ?_, ?_⟩
  · rw [h1]
    nlinarith
  · rw [h1]
    nlinarith
